import Mathlib

/-!
Verification of the tracklog-to-exif core: a shallow embedding of
`src/core/match.py`, `src/core/models.py` and `src/core/exif_io.py`.

Python floats and naive UTC datetimes are embedded as `ℚ` (seconds for
instants); dataclass validation (`__post_init__`) becomes a validating
constructor returning `Option`; exceptions become `Except` errors.
-/

namespace Tracklog

/-! ## Status and method constants (src/core/models.py) -/

def PHOTO_STATUS_ALREADY_GPS : String := "already_gps"

def PHOTO_STATUS_NEED_PROCESS : String := "need_process"

def PHOTO_STATUS_NO_TIME : String := "no_time"

def MATCH_STATUS_MATCHED : String := "matched"

def MATCH_STATUS_UNMATCHED : String := "unmatched"

def MATCH_STATUS_TOO_FAR : String := "too_far"

def MATCH_STATUS_ALREADY_GPS : String := "already_gps"

def MATCH_STATUS_NO_TIME : String := "no_time"

def MATCH_STATUS_WRITE_FAILED : String := "write_failed"

def MATCH_METHOD_NEAREST : String := "nearest"

def MATCH_METHOD_INTERP : String := "interp"

/-! ## Data model (src/core/models.py) -/

/-- A GPS track point (`TrackPoint` dataclass): UTC instant in seconds,
latitude and longitude in decimal degrees. -/
structure TrackPoint where
  t_utc : ℚ
  lat : ℚ
  lon : ℚ
deriving DecidableEq

/-- Default value standing for an out-of-range list access; the engine
never actually reads it on the inputs it indexes. -/
def tpDefault : TrackPoint := ⟨0, 0, 0⟩

/-- A scanned photo (`PhotoItem` dataclass). `datetime_utc` is the naive
EXIF capture time in seconds (still local time; normalized later). -/
structure PhotoItem where
  path : String
  has_gps : Bool
  datetime_utc : Option ℚ
  status : String
deriving DecidableEq

/-- The human-readable `reason` strings produced by the matching engine,
abstracted to their template with the interpolated numeric values kept
as constructor arguments. -/
inductive Reason where
  | beforeStart (errorSec : ℚ)
  | afterEnd (errorSec : ℚ)
  | nearestTooFar (errorSec : ℚ)
  | degradeTooFar (distanceM errorSec : ℚ)
  | degraded (distanceM : ℚ)
  | interpTooFar (errorSec : ℚ)
deriving DecidableEq

/-- A match result (`MatchItem` dataclass), fields as in the source. -/
structure MatchItem where
  photo_path : String
  lat : Option ℚ
  lon : Option ℚ
  error_sec : Option ℚ
  method : Option String
  status : String
  reason : Option Reason
deriving DecidableEq

/-- Default `MatchItem` standing for an out-of-range list access in the
statements below (never actually produced by the engine). -/
def miDefault : MatchItem := ⟨"", none, none, none, none, "", none⟩

def validMatchStatuses : List String :=
  [MATCH_STATUS_MATCHED, MATCH_STATUS_UNMATCHED, MATCH_STATUS_TOO_FAR,
   MATCH_STATUS_ALREADY_GPS, MATCH_STATUS_NO_TIME, MATCH_STATUS_WRITE_FAILED]

def validMatchMethods : List String := [MATCH_METHOD_NEAREST, MATCH_METHOD_INTERP]

/-- Latitude range check `-90.0 <= lat <= 90.0` from the source. -/
def latValid (x : ℚ) : Bool := decide (-90 ≤ x) && decide (x ≤ 90)

/-- Longitude range check `-180.0 <= lon <= 180.0` from the source. -/
def lonValid (x : ℚ) : Bool := decide (-180 ≤ x) && decide (x ≤ 180)

/-- The validation performed by `MatchItem.__post_init__`
(src/core/models.py lines 105-141): non-empty path, status and method
drawn from the closed vocabularies, `matched` requires present in-range
coordinates and a method, `unmatched`/`too_far` require any present
coordinates to be in range. Returns `true` when construction succeeds. -/
def MatchItem.postInitOk (m : MatchItem) : Bool :=
  decide (m.photo_path ≠ "") &&
  validMatchStatuses.contains m.status &&
  (match m.method with
   | none => true
   | some me => validMatchMethods.contains me) &&
  (if m.status = MATCH_STATUS_MATCHED then
     match m.lat, m.lon, m.method with
     | some la, some lo, some _ => latValid la && lonValid lo
     | _, _, _ => false
   else if m.status = MATCH_STATUS_UNMATCHED || m.status = MATCH_STATUS_TOO_FAR then
     (match m.lat with
      | none => true
      | some la => latValid la) &&
     (match m.lon with
      | none => true
      | some lo => lonValid lo)
   else true)

/-- Constructing a `MatchItem`: the dataclass constructor assigns the
fields and runs `__post_init__`, which raises (here: `none`) on invalid
data. -/
def mkMatchItem (photo_path : String) (lat lon error_sec : Option ℚ)
    (method : Option String) (status : String) (reason : Option Reason) :
    Option MatchItem :=
  let m : MatchItem := ⟨photo_path, lat, lon, error_sec, method, status, reason⟩
  if m.postInitOk then some m else none

/-! ## Time normalization (src/core/match.py, `_convert_photo_time_to_utc`) -/

/-- `_convert_photo_time_to_utc`: interpret the naive photo time in the
fixed offset `tz_offset` hours, convert to UTC, then add the camera
drift correction in seconds. In seconds arithmetic this is
`photo_dt - tz_offset * 3600 + camera_offset_sec` (the source's guard
`if camera_offset_sec != 0` does not change the value). -/
def convertPhotoTimeToUtc (photoDt tzOffset cameraOffsetSec : ℚ) : ℚ :=
  photoDt - tzOffset * 3600 + cameraOffsetSec

/-! ## Binary search (Python `bisect.bisect_left`) -/

/-- The loop of CPython's `bisect_left`, with explicit fuel (the
interval `hi - lo` shrinks every iteration, so any fuel larger than the
initial interval makes this the exact algorithm). -/
def bisectGo (a : List ℚ) (x : ℚ) : Nat → Nat → Nat → Nat
  | 0, lo, _hi => lo
  | fuel + 1, lo, hi =>
    if lo < hi then
      let mid := (lo + hi) / 2
      if a.getD mid 0 < x then bisectGo a x fuel (mid + 1) hi
      else bisectGo a x fuel lo mid
    else lo

/-- `bisect.bisect_left(a, x)`. -/
def bisectLeft (a : List ℚ) (x : ℚ) : Nat :=
  bisectGo a x (a.length + 1) 0 a.length

/-! ## Matching engine (src/core/match.py, `match_photos_to_track`) -/

/-- The ways `match_photos_to_track` can raise instead of returning:
the two up-front `ValueError`s (empty track list, invalid method name),
and the `NameError` raised inside the distance-degradation branch by
the call `on_progress(i + 1, total, ...)` whose variable `i` is never
defined (src/core/match.py line 258). -/
inductive MatchError where
  | emptyTrack
  | invalidMethod (method : String)
  | nameErrorI
deriving DecidableEq

/-- The interpolation tail of the interp branch (src/core/match.py
lines 261-295): if the bracketing timestamps coincide use `before`'s
coordinates, otherwise blend both coordinates at
`ratio = (query - t_before) / (t_after - t_before)` with the error the
smaller of the two endpoint gaps; classify against `max_error_sec`. -/
def interpolateItem (photoPath : String) (photoDtUtc : ℚ)
    (pointBefore pointAfter : TrackPoint) (maxErrorSec : ℚ) : MatchItem :=
  let tBefore := pointBefore.t_utc
  let tAfter := pointAfter.t_utc
  let totalSpan := tAfter - tBefore
  let r :=
    if totalSpan = 0 then
      (pointBefore.lat, pointBefore.lon, |photoDtUtc - tBefore|)
    else
      let ratio := (photoDtUtc - tBefore) / totalSpan
      let lat := pointBefore.lat + (pointAfter.lat - pointBefore.lat) * ratio
      let lon := pointBefore.lon + (pointAfter.lon - pointBefore.lon) * ratio
      let errorBefore := |photoDtUtc - tBefore|
      let errorAfter := |photoDtUtc - tAfter|
      (lat, lon, min errorBefore errorAfter)
  if r.2.2 > maxErrorSec then
    ⟨photoPath, none, none, some r.2.2, none, MATCH_STATUS_TOO_FAR,
     some (Reason.interpTooFar r.2.2)⟩
  else
    ⟨photoPath, some r.1, some r.2.1, some r.2.2, some MATCH_METHOD_INTERP,
     MATCH_STATUS_MATCHED, none⟩

/-- One iteration of the photo loop of `match_photos_to_track`
(src/core/match.py lines 97-295). `distFn` stands for the float-valued
`calculate_distance` (Haversine, mean radius 6371 km), whose result the
engine only ever compares against `max_distance_m`; `hasProgress`
records whether an `on_progress` callback was supplied — the
degradation branch then evaluates the undefined name `i` and raises
`NameError` (modelled as `MatchError.nameErrorI`). -/
def processPhoto (trackPoints : List TrackPoint) (trackTimes : List ℚ)
    (photoTzOffset cameraOffsetSec maxErrorSec : ℚ) (method : String)
    (maxDistanceM : Option ℚ) (distFn : ℚ → ℚ → ℚ → ℚ → ℚ)
    (hasProgress : Bool) (photo : PhotoItem) : Except MatchError MatchItem :=
  if photo.status ≠ PHOTO_STATUS_NEED_PROCESS ∨ photo.datetime_utc = none then
    Except.ok ⟨photo.path, none, none, none, none, photo.status, none⟩
  else
    let photoDtUtc :=
      convertPhotoTimeToUtc (photo.datetime_utc.getD 0) photoTzOffset cameraOffsetSec
    let idx := bisectLeft trackTimes photoDtUtc
    if idx = 0 then
      let nearestPoint := trackPoints.getD 0 tpDefault
      let errorSec := |photoDtUtc - nearestPoint.t_utc|
      if errorSec > maxErrorSec then
        Except.ok ⟨photo.path, none, none, some errorSec, none, MATCH_STATUS_TOO_FAR,
          some (Reason.beforeStart errorSec)⟩
      else
        Except.ok ⟨photo.path, some nearestPoint.lat, some nearestPoint.lon,
          some errorSec, some MATCH_METHOD_NEAREST, MATCH_STATUS_MATCHED, none⟩
    else if idx ≥ trackPoints.length then
      let nearestPoint := trackPoints.getD (trackPoints.length - 1) tpDefault
      let errorSec := |photoDtUtc - nearestPoint.t_utc|
      if errorSec > maxErrorSec then
        Except.ok ⟨photo.path, none, none, some errorSec, none, MATCH_STATUS_TOO_FAR,
          some (Reason.afterEnd errorSec)⟩
      else
        Except.ok ⟨photo.path, some nearestPoint.lat, some nearestPoint.lon,
          some errorSec, some MATCH_METHOD_NEAREST, MATCH_STATUS_MATCHED, none⟩
    else
      let pointBefore := trackPoints.getD (idx - 1) tpDefault
      let pointAfter := trackPoints.getD idx tpDefault
      if method = MATCH_METHOD_NEAREST then
        let errorBefore := |photoDtUtc - pointBefore.t_utc|
        let errorAfter := |photoDtUtc - pointAfter.t_utc|
        let nearestPoint := if errorBefore < errorAfter then pointBefore else pointAfter
        let errorSec := if errorBefore < errorAfter then errorBefore else errorAfter
        if errorSec > maxErrorSec then
          Except.ok ⟨photo.path, none, none, some errorSec, none, MATCH_STATUS_TOO_FAR,
            some (Reason.nearestTooFar errorSec)⟩
        else
          Except.ok ⟨photo.path, some nearestPoint.lat, some nearestPoint.lon,
            some errorSec, some MATCH_METHOD_NEAREST, MATCH_STATUS_MATCHED, none⟩
      else
        match maxDistanceM with
        | some maxDist =>
          let distanceM := distFn pointBefore.lat pointBefore.lon pointAfter.lat pointAfter.lon
          if distanceM > maxDist then
            let errorBefore := |photoDtUtc - pointBefore.t_utc|
            let errorAfter := |photoDtUtc - pointAfter.t_utc|
            let nearestPoint := if errorBefore < errorAfter then pointBefore else pointAfter
            let errorSec := if errorBefore < errorAfter then errorBefore else errorAfter
            let item : MatchItem :=
              if errorSec > maxErrorSec then
                ⟨photo.path, none, none, some errorSec, none, MATCH_STATUS_TOO_FAR,
                 some (Reason.degradeTooFar distanceM errorSec)⟩
              else
                ⟨photo.path, some nearestPoint.lat, some nearestPoint.lon, some errorSec,
                 some MATCH_METHOD_NEAREST, MATCH_STATUS_MATCHED,
                 some (Reason.degraded distanceM)⟩
            if hasProgress then Except.error MatchError.nameErrorI
            else Except.ok item
          else
            Except.ok (interpolateItem photo.path photoDtUtc pointBefore pointAfter maxErrorSec)
        | none =>
          Except.ok (interpolateItem photo.path photoDtUtc pointBefore pointAfter maxErrorSec)

/-- The accumulation of the Python `for` loop: results are appended in
input order and a raised exception propagates, discarding the batch. -/
def mapExcept {α β ε : Type} (f : α → Except ε β) : List α → Except ε (List β)
  | [] => Except.ok []
  | a :: as =>
    match f a with
    | Except.error e => Except.error e
    | Except.ok b =>
      match mapExcept f as with
      | Except.error e => Except.error e
      | Except.ok bs => Except.ok (b :: bs)

/-- `match_photos_to_track` (src/core/match.py lines 46-301): validate
the track and the method name up front, extract the sorted? time list,
then process every photo in order. -/
def matchPhotosToTrack (photos : List PhotoItem) (trackPoints : List TrackPoint)
    (photoTzOffset cameraOffsetSec maxErrorSec : ℚ) (method : String)
    (maxDistanceM : Option ℚ) (distFn : ℚ → ℚ → ℚ → ℚ → ℚ)
    (hasProgress : Bool) : Except MatchError (List MatchItem) :=
  if trackPoints.isEmpty then Except.error MatchError.emptyTrack
  else if method ≠ MATCH_METHOD_NEAREST ∧ method ≠ MATCH_METHOD_INTERP then
    Except.error (MatchError.invalidMethod method)
  else
    let trackTimes := trackPoints.map TrackPoint.t_utc
    mapExcept
      (processPhoto trackPoints trackTimes photoTzOffset cameraOffsetSec maxErrorSec
        method maxDistanceM distFn hasProgress)
      photos



/-! ## Infrastructure lemmas -/

theorem mapExcept_ok_length {α β ε : Type} (f : α → Except ε β) :
    ∀ (l : List α) (res : List β), mapExcept f l = Except.ok res →
      res.length = l.length := by
  intro l
  induction l with
  | nil =>
    intro res h
    simp only [mapExcept] at h
    cases h
    rfl
  | cons a as ih =>
    intro res h
    simp only [mapExcept] at h
    cases hfa : f a with
    | error e => rw [hfa] at h; cases h
    | ok b =>
      rw [hfa] at h
      cases hrec : mapExcept f as with
      | error e => rw [hrec] at h; cases h
      | ok bs =>
        rw [hrec] at h
        cases h
        simp [ih bs hrec]

theorem mapExcept_ok_getD {α β ε : Type} (f : α → Except ε β) (da : α) (db : β) :
    ∀ (l : List α) (res : List β), mapExcept f l = Except.ok res →
      ∀ k, k < l.length → f (l.getD k da) = Except.ok (res.getD k db) := by
  intro l
  induction l with
  | nil =>
    intro res _ k hk
    cases hk
  | cons a as ih =>
    intro res h k hk
    simp only [mapExcept] at h
    cases hfa : f a with
    | error e => rw [hfa] at h; cases h
    | ok b =>
      rw [hfa] at h
      cases hrec : mapExcept f as with
      | error e => rw [hrec] at h; cases h
      | ok bs =>
        rw [hrec] at h
        cases h
        cases k with
        | zero => simpa using hfa
        | succ k2 =>
          have hk2 : k2 < as.length := by simpa using hk
          simpa using ih bs hrec k2 hk2

theorem chain_getD_adj (a : List ℚ) (h : List.Chain' (· ≤ ·) a) :
    ∀ k, k + 1 < a.length → a.getD k 0 ≤ a.getD (k + 1) 0 := by
  induction a with
  | nil => intro k hk; cases hk
  | cons x xs ih =>
    intro k hk
    cases k with
    | zero =>
      cases xs with
      | nil => cases (by simpa using hk : (0 : ℕ) < 0)
      | cons y ys =>
        have hxy : x ≤ y := (List.chain'_cons.mp h).1
        simpa using hxy
    | succ k2 =>
      have htail : List.Chain' (· ≤ ·) xs := h.tail
      have hk2 : k2 + 1 < xs.length := by simpa using hk
      simpa using ih htail k2 hk2

theorem chain_getD_mono (a : List ℚ) (h : List.Chain' (· ≤ ·) a) :
    ∀ i j, i ≤ j → j < a.length → a.getD i 0 ≤ a.getD j 0 := by
  intro i j
  induction j with
  | zero =>
    intro hij _
    have : i = 0 := Nat.le_zero.mp hij
    subst this
    exact le_refl _
  | succ j2 ihj =>
    intro hij hjlen
    rcases Nat.lt_or_ge i (j2 + 1) with hlt | hge
    · have h1 : a.getD i 0 ≤ a.getD j2 0 :=
        ihj (Nat.lt_succ_iff.mp hlt) (Nat.lt_of_succ_lt hjlen)
      exact le_trans h1 (chain_getD_adj a h j2 hjlen)
    · have : i = j2 + 1 := Nat.le_antisymm hij hge
      subst this
      exact le_refl _

theorem mapTime_getD (tps : List TrackPoint) :
    ∀ j, j < tps.length →
      (tps.map TrackPoint.t_utc).getD j 0 = (tps.getD j tpDefault).t_utc := by
  induction tps with
  | nil => intro j hj; cases hj
  | cons tp tps ih =>
    intro j hj
    cases j with
    | zero => rfl
    | succ k => simpa using ih k (by simpa using hj)

theorem bisectGo_spec (a : List ℚ) (x : ℚ)
    (hmono : ∀ i j, i ≤ j → j < a.length → a.getD i 0 ≤ a.getD j 0) :
    ∀ (fuel lo hi : Nat), hi - lo ≤ fuel → lo ≤ hi → hi ≤ a.length →
      (∀ j, j < lo → a.getD j 0 < x) →
      (∀ j, hi ≤ j → j < a.length → x ≤ a.getD j 0) →
      lo ≤ bisectGo a x fuel lo hi ∧ bisectGo a x fuel lo hi ≤ hi ∧
      (∀ j, j < bisectGo a x fuel lo hi → a.getD j 0 < x) ∧
      (∀ j, bisectGo a x fuel lo hi ≤ j → j < a.length → x ≤ a.getD j 0) := by
  intro fuel
  induction fuel with
  | zero =>
    intro lo hi hfuel hle _ hlo hhi
    have : lo = hi := by omega
    subst this
    exact ⟨le_refl _, le_refl _, hlo, hhi⟩
  | succ fuel ih =>
    intro lo hi hfuel hle hhia hlo hhi
    by_cases hlh : lo < hi
    · have hmidlo : lo ≤ (lo + hi) / 2 := by omega
      have hmidhi : (lo + hi) / 2 < hi := by omega
      by_cases hcomp : a.getD ((lo + hi) / 2) 0 < x
      · have hstep : bisectGo a x (fuel + 1) lo hi = bisectGo a x fuel ((lo + hi) / 2 + 1) hi := by
          simp only [bisectGo, if_pos hlh, if_pos hcomp]
        rw [hstep]
        have hlo2 : ∀ j, j < (lo + hi) / 2 + 1 → a.getD j 0 < x := by
          intro j hj
          have hjle : j ≤ (lo + hi) / 2 := by omega
          have hmlt : (lo + hi) / 2 < a.length := by omega
          exact lt_of_le_of_lt (hmono j ((lo + hi) / 2) hjle hmlt) hcomp
        have := ih ((lo + hi) / 2 + 1) hi (by omega) (by omega) hhia hlo2 hhi
        exact ⟨by omega, this.2.1, this.2.2.1, this.2.2.2⟩
      · have hstep : bisectGo a x (fuel + 1) lo hi = bisectGo a x fuel lo ((lo + hi) / 2) := by
          simp only [bisectGo, if_pos hlh, if_neg hcomp]
        rw [hstep]
        have hhi2 : ∀ j, (lo + hi) / 2 ≤ j → j < a.length → x ≤ a.getD j 0 := by
          intro j hj hjlen
          have hxm : x ≤ a.getD ((lo + hi) / 2) 0 := not_lt.mp hcomp
          exact le_trans hxm (hmono ((lo + hi) / 2) j hj hjlen)
        have := ih lo ((lo + hi) / 2) (by omega) (by omega) (by omega) hlo hhi2
        exact ⟨this.1, by omega, this.2.2.1, this.2.2.2⟩
    · have hstep : bisectGo a x (fuel + 1) lo hi = lo := by
        simp only [bisectGo, if_neg hlh]
      rw [hstep]
      have : lo = hi := by omega
      subst this
      exact ⟨le_refl _, le_refl _, hlo, hhi⟩

theorem bisectLeft_spec (a : List ℚ) (x : ℚ)
    (hmono : ∀ i j, i ≤ j → j < a.length → a.getD i 0 ≤ a.getD j 0) :
    bisectLeft a x ≤ a.length ∧
    (∀ j, j < bisectLeft a x → a.getD j 0 < x) ∧
    (∀ j, bisectLeft a x ≤ j → j < a.length → x ≤ a.getD j 0) := by
  have := bisectGo_spec a x hmono (a.length + 1) 0 a.length (by omega) (by omega)
    (le_refl _) (by intro j hj; cases hj) (by intro j hj hjlen; omega)
  exact ⟨this.2.1, this.2.2.1, this.2.2.2⟩

/-- On a time-sorted list, `bisect_left` returns exactly the bracketing
index: if `a[i-1] < x ≤ a[i]` then the insertion point is `i`. -/
theorem bisectLeft_bracket (a : List ℚ) (x : ℚ)
    (hmono : ∀ i j, i ≤ j → j < a.length → a.getD i 0 ≤ a.getD j 0)
    (i : ℕ) (hi0 : 0 < i) (hilen : i < a.length)
    (hlow : a.getD (i - 1) 0 < x) (hhigh : x ≤ a.getD i 0) :
    bisectLeft a x = i := by
  obtain ⟨hle, hall, hge⟩ := bisectLeft_spec a x hmono
  by_contra hne
  rcases Nat.lt_or_ge (bisectLeft a x) i with hlt | hgt
  · have h1 : bisectLeft a x ≤ i - 1 := by omega
    have h2 : i - 1 < a.length := by omega
    have := hge (i - 1) h1 h2
    exact absurd hlow (not_lt.mpr this)
  · have h1 : i < bisectLeft a x := by omega
    have := hall i h1
    exact absurd hhigh (not_le.mpr this)


/-- Reduction of `processPhoto` for a photo in `need_process` status whose
normalized time falls strictly inside the (sorted) track's bracket at
index `i`: binary search lands on `i` and the engine takes the
two-neighbor branch of the source. -/
theorem processPhoto_bracket (tps : List TrackPoint)
    (tz cam maxErr : ℚ) (method : String) (maxD : Option ℚ)
    (dfn : ℚ → ℚ → ℚ → ℚ → ℚ) (hp : Bool) (photo : PhotoItem)
    (hst : photo.status = PHOTO_STATUS_NEED_PROCESS) (t : ℚ)
    (ht : photo.datetime_utc = some t)
    (hs : List.Chain' (· ≤ ·) (tps.map TrackPoint.t_utc))
    (i : ℕ) (hi0 : 0 < i) (hilen : i < tps.length)
    (hlow : (tps.getD (i - 1) tpDefault).t_utc < convertPhotoTimeToUtc t tz cam)
    (hhigh : convertPhotoTimeToUtc t tz cam ≤ (tps.getD i tpDefault).t_utc) :
    processPhoto tps (tps.map TrackPoint.t_utc) tz cam maxErr method maxD dfn hp photo =
      (let photoDtUtc := convertPhotoTimeToUtc t tz cam
       let pointBefore := tps.getD (i - 1) tpDefault
       let pointAfter := tps.getD i tpDefault
       if method = MATCH_METHOD_NEAREST then
         let errorBefore := |photoDtUtc - pointBefore.t_utc|
         let errorAfter := |photoDtUtc - pointAfter.t_utc|
         let nearestPoint := if errorBefore < errorAfter then pointBefore else pointAfter
         let errorSec := if errorBefore < errorAfter then errorBefore else errorAfter
         if errorSec > maxErr then
           Except.ok ⟨photo.path, none, none, some errorSec, none, MATCH_STATUS_TOO_FAR,
             some (Reason.nearestTooFar errorSec)⟩
         else
           Except.ok ⟨photo.path, some nearestPoint.lat, some nearestPoint.lon,
             some errorSec, some MATCH_METHOD_NEAREST, MATCH_STATUS_MATCHED, none⟩
       else
         match maxD with
         | some maxDist =>
           let distanceM := dfn pointBefore.lat pointBefore.lon pointAfter.lat pointAfter.lon
           if distanceM > maxDist then
             let errorBefore := |photoDtUtc - pointBefore.t_utc|
             let errorAfter := |photoDtUtc - pointAfter.t_utc|
             let nearestPoint := if errorBefore < errorAfter then pointBefore else pointAfter
             let errorSec := if errorBefore < errorAfter then errorBefore else errorAfter
             let item : MatchItem :=
               if errorSec > maxErr then
                 ⟨photo.path, none, none, some errorSec, none, MATCH_STATUS_TOO_FAR,
                  some (Reason.degradeTooFar distanceM errorSec)⟩
               else
                 ⟨photo.path, some nearestPoint.lat, some nearestPoint.lon, some errorSec,
                  some MATCH_METHOD_NEAREST, MATCH_STATUS_MATCHED,
                  some (Reason.degraded distanceM)⟩
             if hp then Except.error MatchError.nameErrorI
             else Except.ok item
           else
             Except.ok (interpolateItem photo.path photoDtUtc pointBefore pointAfter maxErr)
         | none =>
           Except.ok (interpolateItem photo.path photoDtUtc pointBefore pointAfter maxErr)) := by
  have hmono := chain_getD_mono _ hs
  have hlen : (tps.map TrackPoint.t_utc).length = tps.length := by simp
  have hi1len : i - 1 < tps.length := by omega
  have hlow2 : (tps.map TrackPoint.t_utc).getD (i - 1) 0 < convertPhotoTimeToUtc t tz cam := by
    rw [mapTime_getD tps (i - 1) hi1len]
    exact hlow
  have hhigh2 : convertPhotoTimeToUtc t tz cam ≤ (tps.map TrackPoint.t_utc).getD i 0 := by
    rw [mapTime_getD tps i hilen]
    exact hhigh
  have hbis : bisectLeft (tps.map TrackPoint.t_utc) (convertPhotoTimeToUtc t tz cam) = i :=
    bisectLeft_bracket _ _ hmono i hi0 (by omega) hlow2 hhigh2
  simp only [processPhoto, hst, ht]
  rw [if_neg (by simp [PHOTO_STATUS_NEED_PROCESS])]
  simp only [Option.getD_some, hbis]
  rw [if_neg (by omega), if_neg (by omega)]

/-- Default `PhotoItem` standing for an out-of-range list access in the
statements below. -/
def piDefault : PhotoItem := ⟨"x", false, none, PHOTO_STATUS_NO_TIME⟩

/-- C1 (amended): in nearest mode, a NEEDS_MATCH photo strictly inside a
bracket gets the neighbor with the smaller absolute time gap, with the
reported error the smaller gap, classified against `max_error_sec`; when
the two gaps are exactly equal the engine picks the LATER point
(`after`), not the earlier one. -/
theorem nearest_picks_smaller_gap
    (photos : List PhotoItem) (tps : List TrackPoint) (tz cam maxErr : ℚ)
    (maxD : Option ℚ) (dfn : ℚ → ℚ → ℚ → ℚ → ℚ) (hp : Bool)
    (results : List MatchItem)
    (hrun : matchPhotosToTrack photos tps tz cam maxErr MATCH_METHOD_NEAREST maxD dfn hp
      = Except.ok results)
    (k : ℕ) (hk : k < photos.length)
    (hst : (photos.getD k piDefault).status = PHOTO_STATUS_NEED_PROCESS)
    (t : ℚ) (ht : (photos.getD k piDefault).datetime_utc = some t)
    (hs : List.Chain' (· ≤ ·) (tps.map TrackPoint.t_utc))
    (i : ℕ) (hi0 : 0 < i) (hilen : i < tps.length)
    (hlow : (tps.getD (i - 1) tpDefault).t_utc < convertPhotoTimeToUtc t tz cam)
    (hhigh : convertPhotoTimeToUtc t tz cam < (tps.getD i tpDefault).t_utc) :
    results.getD k miDefault =
      (let q := convertPhotoTimeToUtc t tz cam
       let pb := tps.getD (i - 1) tpDefault
       let pa := tps.getD i tpDefault
       let e := min |q - pb.t_utc| |q - pa.t_utc|
       if e > maxErr then
         ⟨(photos.getD k piDefault).path, none, none, some e, none, MATCH_STATUS_TOO_FAR,
          some (Reason.nearestTooFar e)⟩
       else if |q - pb.t_utc| < |q - pa.t_utc| then
         ⟨(photos.getD k piDefault).path, some pb.lat, some pb.lon, some e,
          some MATCH_METHOD_NEAREST, MATCH_STATUS_MATCHED, none⟩
       else
         ⟨(photos.getD k piDefault).path, some pa.lat, some pa.lon, some e,
          some MATCH_METHOD_NEAREST, MATCH_STATUS_MATCHED, none⟩) := by
  have hne : tps ≠ [] := by
    intro hemp
    rw [hemp] at hilen
    exact absurd hilen (by simp)
  rw [matchPhotosToTrack] at hrun
  rw [if_neg (by simp [List.isEmpty_iff, hne])] at hrun
  rw [if_neg (by simp)] at hrun
  have hpp := mapExcept_ok_getD _ piDefault miDefault photos results hrun k hk
  rw [processPhoto_bracket tps tz cam maxErr MATCH_METHOD_NEAREST maxD dfn hp _
    hst t ht hs i hi0 hilen hlow (le_of_lt hhigh)] at hpp
  rw [if_pos rfl] at hpp
  set q := convertPhotoTimeToUtc t tz cam with hq
  set pb := tps.getD (i - 1) tpDefault with hpb
  set pa := tps.getD i tpDefault with hpa
  rcases lt_or_ge |q - pb.t_utc| |q - pa.t_utc| with hc | hc
  · simp only [if_pos hc] at hpp
    have hmin : min |q - pb.t_utc| |q - pa.t_utc| = |q - pb.t_utc| := min_eq_left hc.le
    simp only [hmin, if_pos hc]
    by_cases hthr : |q - pb.t_utc| > maxErr
    · rw [if_pos hthr] at hpp
      rw [if_pos hthr]
      exact (Except.ok.inj hpp).symm
    · rw [if_neg hthr] at hpp
      rw [if_neg hthr]
      exact (Except.ok.inj hpp).symm
  · have hc2 : ¬ |q - pb.t_utc| < |q - pa.t_utc| := not_lt.mpr hc
    simp only [if_neg hc2] at hpp
    have hmin : min |q - pb.t_utc| |q - pa.t_utc| = |q - pa.t_utc| := min_eq_right hc
    simp only [hmin, if_neg hc2]
    by_cases hthr : |q - pa.t_utc| > maxErr
    · rw [if_pos hthr] at hpp
      rw [if_pos hthr]
      exact (Except.ok.inj hpp).symm
    · rw [if_neg hthr] at hpp
      rw [if_neg hthr]
      exact (Except.ok.inj hpp).symm

/-- C1 counterexample to the claim as stated: track points at T=0 (10,20)
and T=100 (30,40), photo normalizing to T=50 — both gaps are exactly 50
seconds, yet nearest mode returns the LATER point's coordinates (30,40),
not the earlier point's (10,20) as the claim's tie-break predicts. -/
theorem nearest_tie_counterexample :
    matchPhotosToTrack [⟨"p.jpg", false, some 50, PHOTO_STATUS_NEED_PROCESS⟩]
        [⟨0, 10, 20⟩, ⟨100, 30, 40⟩] 0 0 1000 MATCH_METHOD_NEAREST none
        (fun _ _ _ _ => 0) false
      = Except.ok [⟨"p.jpg", some 30, some 40, some 50, some MATCH_METHOD_NEAREST,
          MATCH_STATUS_MATCHED, none⟩] ∧
    matchPhotosToTrack [⟨"p.jpg", false, some 50, PHOTO_STATUS_NEED_PROCESS⟩]
        [⟨0, 10, 20⟩, ⟨100, 30, 40⟩] 0 0 1000 MATCH_METHOD_NEAREST none
        (fun _ _ _ _ => 0) false
      ≠ Except.ok [⟨"p.jpg", some 10, some 20, some 50, some MATCH_METHOD_NEAREST,
          MATCH_STATUS_MATCHED, none⟩] := by
  have heval : matchPhotosToTrack [⟨"p.jpg", false, some 50, PHOTO_STATUS_NEED_PROCESS⟩]
      [⟨0, 10, 20⟩, ⟨100, 30, 40⟩] 0 0 1000 MATCH_METHOD_NEAREST none
      (fun _ _ _ _ => 0) false
      = Except.ok [⟨"p.jpg", some 30, some 40, some 50, some MATCH_METHOD_NEAREST,
          MATCH_STATUS_MATCHED, none⟩] := by
    norm_num [matchPhotosToTrack, processPhoto, mapExcept, convertPhotoTimeToUtc,
      bisectLeft, bisectGo, List.getD, PHOTO_STATUS_NEED_PROCESS, MATCH_METHOD_NEAREST,
      MATCH_METHOD_INTERP, MATCH_STATUS_MATCHED, tpDefault]
    rfl
  refine ⟨heval, ?_⟩
  rw [heval]
  intro hcontra
  rw [Except.ok.injEq, List.cons.injEq, MatchItem.mk.injEq] at hcontra
  exact absurd (Option.some.inj hcontra.1.2.1) (by norm_num)

/-- Witness for `nearest_picks_smaller_gap` at the tie input T=50 between
T=0 and T=100 (both gaps 50): the theorem's hypotheses hold and it
reports the later point. -/
theorem nearest_picks_smaller_gap_witness :
    ([⟨"p.jpg", some 30, some 40, some 50, some MATCH_METHOD_NEAREST,
        MATCH_STATUS_MATCHED, none⟩] : List MatchItem).getD 0 miDefault =
      (let q := convertPhotoTimeToUtc 50 0 0
       let pb := ([⟨0, 10, 20⟩, ⟨100, 30, 40⟩] : List TrackPoint).getD 0 tpDefault
       let pa := ([⟨0, 10, 20⟩, ⟨100, 30, 40⟩] : List TrackPoint).getD 1 tpDefault
       let e := min |q - pb.t_utc| |q - pa.t_utc|
       if e > 1000 then
         ⟨(([⟨"p.jpg", false, some 50, PHOTO_STATUS_NEED_PROCESS⟩] :
             List PhotoItem).getD 0 piDefault).path, none, none, some e, none,
          MATCH_STATUS_TOO_FAR, some (Reason.nearestTooFar e)⟩
       else if |q - pb.t_utc| < |q - pa.t_utc| then
         ⟨(([⟨"p.jpg", false, some 50, PHOTO_STATUS_NEED_PROCESS⟩] :
             List PhotoItem).getD 0 piDefault).path, some pb.lat, some pb.lon, some e,
          some MATCH_METHOD_NEAREST, MATCH_STATUS_MATCHED, none⟩
       else
         ⟨(([⟨"p.jpg", false, some 50, PHOTO_STATUS_NEED_PROCESS⟩] :
             List PhotoItem).getD 0 piDefault).path, some pa.lat, some pa.lon, some e,
          some MATCH_METHOD_NEAREST, MATCH_STATUS_MATCHED, none⟩) :=
  nearest_picks_smaller_gap
    [⟨"p.jpg", false, some 50, PHOTO_STATUS_NEED_PROCESS⟩]
    [⟨0, 10, 20⟩, ⟨100, 30, 40⟩] 0 0 1000 none (fun _ _ _ _ => 0) false
    [⟨"p.jpg", some 30, some 40, some 50, some MATCH_METHOD_NEAREST,
      MATCH_STATUS_MATCHED, none⟩]
    (by norm_num [matchPhotosToTrack, processPhoto, mapExcept, convertPhotoTimeToUtc,
          bisectLeft, bisectGo, List.getD, PHOTO_STATUS_NEED_PROCESS, MATCH_METHOD_NEAREST,
          MATCH_METHOD_INTERP, MATCH_STATUS_MATCHED, tpDefault]
        rfl)
    0 (by norm_num) rfl 50 rfl (by norm_num [List.chain'_cons, List.chain'_singleton]) 1
    (by norm_num) (by norm_num)
    (by norm_num [List.getD, tpDefault, convertPhotoTimeToUtc])
    (by norm_num [List.getD, tpDefault, convertPhotoTimeToUtc])

/-- C3 counterexample to the claim as stated: on the unsorted track
[T=100 (30,40), T=0 (10,20)] a photo at T=150 matches (10,20) with a
150 s error, while on the same sequence sorted ascending by `t_utc` it
matches (30,40) with a 50 s error — the engine does not sort
defensively, so unsorted input changes the result. -/
theorem match_unsorted_counterexample :
    matchPhotosToTrack [⟨"p.jpg", false, some 150, PHOTO_STATUS_NEED_PROCESS⟩]
        [⟨100, 30, 40⟩, ⟨0, 10, 20⟩] 0 0 1000 MATCH_METHOD_NEAREST none
        (fun _ _ _ _ => 0) false
      = Except.ok [⟨"p.jpg", some 10, some 20, some 150, some MATCH_METHOD_NEAREST,
          MATCH_STATUS_MATCHED, none⟩] ∧
    matchPhotosToTrack [⟨"p.jpg", false, some 150, PHOTO_STATUS_NEED_PROCESS⟩]
        (List.insertionSort (fun a b => a.t_utc ≤ b.t_utc) [⟨100, 30, 40⟩, ⟨0, 10, 20⟩])
        0 0 1000 MATCH_METHOD_NEAREST none (fun _ _ _ _ => 0) false
      = Except.ok [⟨"p.jpg", some 30, some 40, some 50, some MATCH_METHOD_NEAREST,
          MATCH_STATUS_MATCHED, none⟩] ∧
    (⟨"p.jpg", some 10, some 20, some 150, some MATCH_METHOD_NEAREST,
        MATCH_STATUS_MATCHED, none⟩ : MatchItem)
      ≠ ⟨"p.jpg", some 30, some 40, some 50, some MATCH_METHOD_NEAREST,
          MATCH_STATUS_MATCHED, none⟩ := by
  refine ⟨?_, ?_, ?_⟩
  · norm_num [matchPhotosToTrack, processPhoto, mapExcept, convertPhotoTimeToUtc,
      bisectLeft, bisectGo, List.getD, PHOTO_STATUS_NEED_PROCESS, MATCH_METHOD_NEAREST,
      MATCH_METHOD_INTERP, MATCH_STATUS_MATCHED, tpDefault]
    rfl
  · norm_num [matchPhotosToTrack, processPhoto, mapExcept, convertPhotoTimeToUtc,
      bisectLeft, bisectGo, List.getD, PHOTO_STATUS_NEED_PROCESS, MATCH_METHOD_NEAREST,
      MATCH_METHOD_INTERP, MATCH_STATUS_MATCHED, tpDefault,
      List.insertionSort, List.orderedInsert]
    rfl
  · intro h
    rw [MatchItem.mk.injEq] at h
    exact absurd (Option.some.inj h.2.1) (by norm_num)

/-- C3 (amended): the engine itself does not sort; it is the parsers that
hand it a time-sorted track. On a track already sorted ascending by
`t_utc`, sorting is the identity, so the engine's results agree with the
results on the sorted sequence; on an unsorted track they can differ. -/
theorem match_sorted_track_eq_insertionSort
    (photos : List PhotoItem) (tps : List TrackPoint) (tz cam maxErr : ℚ)
    (method : String) (maxD : Option ℚ) (dfn : ℚ → ℚ → ℚ → ℚ → ℚ) (hp : Bool)
    (hs : List.Sorted (fun a b : TrackPoint => a.t_utc ≤ b.t_utc) tps) :
    matchPhotosToTrack photos tps tz cam maxErr method maxD dfn hp =
      matchPhotosToTrack photos
        (List.insertionSort (fun a b => a.t_utc ≤ b.t_utc) tps)
        tz cam maxErr method maxD dfn hp := by
  rw [List.Sorted.insertionSort_eq hs]

/-- Witness for `match_sorted_track_eq_insertionSort` on a concrete
sorted two-point track. -/
theorem match_sorted_track_eq_insertionSort_witness :
    matchPhotosToTrack [⟨"p.jpg", false, some 150, PHOTO_STATUS_NEED_PROCESS⟩]
        [⟨0, 10, 20⟩, ⟨100, 30, 40⟩] 0 0 1000 MATCH_METHOD_NEAREST none
        (fun _ _ _ _ => 0) false
      = matchPhotosToTrack [⟨"p.jpg", false, some 150, PHOTO_STATUS_NEED_PROCESS⟩]
          (List.insertionSort (fun a b => a.t_utc ≤ b.t_utc)
            [⟨0, 10, 20⟩, ⟨100, 30, 40⟩])
          0 0 1000 MATCH_METHOD_NEAREST none (fun _ _ _ _ => 0) false :=
  match_sorted_track_eq_insertionSort
    [⟨"p.jpg", false, some 150, PHOTO_STATUS_NEED_PROCESS⟩]
    [⟨0, 10, 20⟩, ⟨100, 30, 40⟩] 0 0 1000 MATCH_METHOD_NEAREST none
    (fun _ _ _ _ => 0) false
    (by norm_num [List.sorted_cons])

/-- C2: the batch does NOT always complete. When a progress callback is
supplied and the interp-mode distance-degradation branch fires (here the
bracketing points are modelled ~155 km apart, beyond the 100 m limit),
the source evaluates `on_progress(i + 1, ...)` where `i` is an undefined
name, raising `NameError` and aborting the whole batch with no results. -/
theorem match_progress_degrade_name_error :
    matchPhotosToTrack [⟨"p.jpg", false, some 50, PHOTO_STATUS_NEED_PROCESS⟩]
        [⟨0, 10, 20⟩, ⟨100, 11, 21⟩] 0 0 1000 MATCH_METHOD_INTERP (some 100)
        (fun _ _ _ _ => 155000) true
      = Except.error MatchError.nameErrorI := by
  norm_num [matchPhotosToTrack, processPhoto, mapExcept, convertPhotoTimeToUtc,
    bisectLeft, bisectGo, List.getD, PHOTO_STATUS_NEED_PROCESS, MATCH_METHOD_NEAREST,
    MATCH_METHOD_INTERP, tpDefault]
  rfl

/-- C8: both validation failures are raised before the photo loop starts:
an empty track list raises the empty-track `ValueError` (the spec's
`EmptyTrackError`) whatever the photos, and a method name other than
`nearest`/`interp` raises the invalid-method `ValueError` (the spec's
`InvalidMethodError`) on any non-empty track, whatever the photos; in
either case no per-photo result is produced. -/
theorem match_validates_before_processing :
    (∀ (photos : List PhotoItem) (tz cam maxErr : ℚ) (method : String)
       (maxD : Option ℚ) (dfn : ℚ → ℚ → ℚ → ℚ → ℚ) (hp : Bool),
       matchPhotosToTrack photos [] tz cam maxErr method maxD dfn hp
         = Except.error MatchError.emptyTrack) ∧
    (∀ (photos : List PhotoItem) (tps : List TrackPoint) (tz cam maxErr : ℚ)
       (method : String) (maxD : Option ℚ) (dfn : ℚ → ℚ → ℚ → ℚ → ℚ) (hp : Bool),
       tps ≠ [] → method ≠ MATCH_METHOD_NEAREST → method ≠ MATCH_METHOD_INTERP →
       matchPhotosToTrack photos tps tz cam maxErr method maxD dfn hp
         = Except.error (MatchError.invalidMethod method)) := by
  constructor
  · intro photos tz cam maxErr method maxD dfn hp
    rw [matchPhotosToTrack]
    rw [if_pos (by simp)]
  · intro photos tps tz cam maxErr method maxD dfn hp hne hm1 hm2
    rw [matchPhotosToTrack]
    rw [if_neg (by simp [List.isEmpty_iff, hne])]
    rw [if_pos ⟨hm1, hm2⟩]

/-- Witness for `match_validates_before_processing`: the empty-track case
and an invalid method name on a one-point track. -/
theorem match_validates_before_processing_witness :
    matchPhotosToTrack [] [] 0 0 120 MATCH_METHOD_INTERP none (fun _ _ _ _ => 0) false
      = Except.error MatchError.emptyTrack ∧
    matchPhotosToTrack [] [⟨0, 1, 2⟩] 0 0 120 ("bogus") none (fun _ _ _ _ => 0) false
      = Except.error (MatchError.invalidMethod ("bogus")) :=
  ⟨match_validates_before_processing.1 [] 0 0 120 MATCH_METHOD_INTERP none
      (fun _ _ _ _ => 0) false,
   match_validates_before_processing.2 [] [⟨0, 1, 2⟩] 0 0 120 ("bogus") none
      (fun _ _ _ _ => 0) false (by simp)
      (by simp [MATCH_METHOD_NEAREST]) (by simp [MATCH_METHOD_INTERP])⟩

/-- C9 counterexample to the claim as stated: a `MatchItem` with status
`no_time` and a present latitude of 999 (far outside [-90, 90])
constructs successfully — `__post_init__` range-checks present
coordinates only for the `matched`, `unmatched` and `too_far` statuses. -/
theorem mkMatchItem_range_counterexample :
    mkMatchItem ("a.jpg") (some 999) (some 0) none none MATCH_STATUS_NO_TIME none
      = some ⟨"a.jpg", some 999, some 0, none, none, MATCH_STATUS_NO_TIME, none⟩ ∧
    latValid 999 = false := by
  constructor
  · decide
  · decide

/-- C9 (amended): construction enforces the invariant only for the
statuses it checks: a successfully constructed `MatchItem` with status
`matched` has lat, lon and method all present with lat/lon in range, and
one with status `unmatched` or `too_far` has any present lat/lon in
range; other statuses (`already_gps`, `no_time`, `write_failed`) are not
range-checked. -/
theorem mkMatchItem_invariant
    (p : String) (lat lon err : Option ℚ) (method : Option String)
    (status : String) (reason : Option Reason) (m : MatchItem)
    (h : mkMatchItem p lat lon err method status reason = some m) :
    (m.status = MATCH_STATUS_MATCHED →
      ∃ la lo me, m.lat = some la ∧ m.lon = some lo ∧ m.method = some me ∧
        latValid la = true ∧ lonValid lo = true) ∧
    ((m.status = MATCH_STATUS_UNMATCHED ∨ m.status = MATCH_STATUS_TOO_FAR) →
      (∀ la, m.lat = some la → latValid la = true) ∧
      (∀ lo, m.lon = some lo → lonValid lo = true)) := by
  rw [mkMatchItem] at h
  by_cases hok : MatchItem.postInitOk ⟨p, lat, lon, err, method, status, reason⟩
  · rw [if_pos hok] at h
    have hm : m = ⟨p, lat, lon, err, method, status, reason⟩ := (Option.some.inj h).symm
    subst hm
    simp only [MatchItem.postInitOk, Bool.and_eq_true] at hok
    obtain ⟨⟨⟨h1, h2⟩, h3⟩, h4⟩ := hok
    constructor
    · intro hstat
      have hstat2 : status = MATCH_STATUS_MATCHED := hstat
      rw [if_pos hstat2] at h4
      cases lat with
      | none => cases lon <;> cases method <;> simp at h4
      | some la =>
        cases lon with
        | none => cases method <;> simp at h4
        | some lo =>
          cases method with
          | none => simp at h4
          | some me =>
            rw [Bool.and_eq_true] at h4
            exact ⟨la, lo, me, rfl, rfl, rfl, h4.1, h4.2⟩
    · intro hstat
      have hstat2 : status = MATCH_STATUS_UNMATCHED ∨ status = MATCH_STATUS_TOO_FAR := hstat
      have hne : status ≠ MATCH_STATUS_MATCHED := by
        rcases hstat2 with hstat3 | hstat3 <;> rw [hstat3] <;> decide
      rw [if_neg hne] at h4
      have hor : (status = MATCH_STATUS_UNMATCHED || status = MATCH_STATUS_TOO_FAR) = true := by
        rcases hstat2 with hstat3 | hstat3 <;> simp [hstat3]
      rw [if_pos hor] at h4
      rw [Bool.and_eq_true] at h4
      constructor
      · intro la hla
        have hla2 : lat = some la := hla
        rw [hla2] at h4
        exact h4.1
      · intro lo hlo
        have hlo2 : lon = some lo := hlo
        rw [hlo2] at h4
        exact h4.2
  · rw [if_neg hok] at h
    cases h

/-- Witness for `mkMatchItem_invariant` on a successfully constructed
`matched` item. -/
theorem mkMatchItem_invariant_witness :
    ((⟨"a.jpg", some 1, some 2, some 3, some MATCH_METHOD_INTERP,
        MATCH_STATUS_MATCHED, none⟩ : MatchItem).status = MATCH_STATUS_MATCHED →
      ∃ la lo me,
        (⟨"a.jpg", some 1, some 2, some 3, some MATCH_METHOD_INTERP,
           MATCH_STATUS_MATCHED, none⟩ : MatchItem).lat = some la ∧
        (⟨"a.jpg", some 1, some 2, some 3, some MATCH_METHOD_INTERP,
           MATCH_STATUS_MATCHED, none⟩ : MatchItem).lon = some lo ∧
        (⟨"a.jpg", some 1, some 2, some 3, some MATCH_METHOD_INTERP,
           MATCH_STATUS_MATCHED, none⟩ : MatchItem).method = some me ∧
        latValid la = true ∧ lonValid lo = true) ∧
    (((⟨"a.jpg", some 1, some 2, some 3, some MATCH_METHOD_INTERP,
         MATCH_STATUS_MATCHED, none⟩ : MatchItem).status = MATCH_STATUS_UNMATCHED ∨
      (⟨"a.jpg", some 1, some 2, some 3, some MATCH_METHOD_INTERP,
         MATCH_STATUS_MATCHED, none⟩ : MatchItem).status = MATCH_STATUS_TOO_FAR) →
      (∀ la, (⟨"a.jpg", some 1, some 2, some 3, some MATCH_METHOD_INTERP,
          MATCH_STATUS_MATCHED, none⟩ : MatchItem).lat = some la → latValid la = true) ∧
      (∀ lo, (⟨"a.jpg", some 1, some 2, some 3, some MATCH_METHOD_INTERP,
          MATCH_STATUS_MATCHED, none⟩ : MatchItem).lon = some lo → lonValid lo = true)) :=
  mkMatchItem_invariant ("a.jpg") (some 1) (some 2) (some 3)
    (some MATCH_METHOD_INTERP) MATCH_STATUS_MATCHED none
    ⟨"a.jpg", some 1, some 2, some 3, some MATCH_METHOD_INTERP,
      MATCH_STATUS_MATCHED, none⟩ (by decide)

/-! ## EXIF GPS presence check (src/core/exif_io.py, `read_exif_info`) -/

/-- piexif GPS IFD tag numbers used by the source. -/
def gpsLatitudeRefTag : Nat := 1

def gpsLatitudeTag : Nat := 2

def gpsLongitudeRefTag : Nat := 3

def gpsLongitudeTag : Nat := 4

/-- The slice of a piexif metadata dictionary the presence check reads:
the `GPS` sub-dictionary, represented by its set of present tag keys
(`none` when the `GPS` key itself is absent). -/
structure ExifData where
  gps : Option (List Nat)
deriving DecidableEq

/-- The GPS presence computation of `read_exif_info` (src/core/exif_io.py
lines 47-57): the `GPS` block must exist and be non-empty, and all four
of latitude, longitude and the two hemisphere references must be
present. -/
def hasGps (exif : ExifData) : Bool :=
  match exif.gps with
  | none => false
  | some gpsTags =>
    if gpsTags.isEmpty then false
    else
      decide (gpsLatitudeTag ∈ gpsTags) && decide (gpsLongitudeTag ∈ gpsTags) &&
      decide (gpsLatitudeRefTag ∈ gpsTags) && decide (gpsLongitudeRefTag ∈ gpsTags)

/-- C10: the presence check accepts exactly the metadata blocks whose GPS
dictionary contains all four required fields; a block missing any one of
them (or missing the GPS dictionary entirely) is reported as having no
GPS. -/
theorem hasGps_iff_all_four (exif : ExifData) :
    hasGps exif = true ↔
      ∃ gpsTags, exif.gps = some gpsTags ∧
        gpsLatitudeTag ∈ gpsTags ∧ gpsLongitudeTag ∈ gpsTags ∧
        gpsLatitudeRefTag ∈ gpsTags ∧ gpsLongitudeRefTag ∈ gpsTags := by
  cases hg : exif.gps with
  | none => simp [hasGps, hg]
  | some tags =>
    simp only [hasGps, hg]
    by_cases he : tags.isEmpty
    · rw [if_pos he]
      rw [List.isEmpty_iff] at he
      subst he
      simp
    · rw [if_neg he]
      constructor
      · intro h
        rw [Bool.and_eq_true, Bool.and_eq_true, Bool.and_eq_true] at h
        exact ⟨tags, rfl, of_decide_eq_true h.1.1.1, of_decide_eq_true h.1.1.2,
          of_decide_eq_true h.1.2, of_decide_eq_true h.2⟩
      · rintro ⟨gpsTags, hgt, h1, h2, h3, h4⟩
        have : gpsTags = tags := (Option.some.inj hgt).symm
        subst this
        rw [Bool.and_eq_true, Bool.and_eq_true, Bool.and_eq_true]
        exact ⟨⟨⟨decide_eq_true h1, decide_eq_true h2⟩, decide_eq_true h3⟩,
          decide_eq_true h4⟩

/-! ## EXIF DMS coordinate codec (src/core/exif_io.py, `write_gps_to_copy`) -/

/-- One encoded EXIF GPS coordinate: hemisphere reference plus the three
rationals of the GPS IFD entry — degrees and minutes with denominator 1,
seconds scaled by the fixed denominator 1000. -/
structure DMSCoord where
  ref : Char
  deg : Int
  minutes : Int
  secNum : Int
  secDen : Int
deriving DecidableEq

/-- The DMS encoding of `write_gps_to_copy` (src/core/exif_io.py lines
169-192): sign goes to the hemisphere reference, the magnitude is split
with Python `int()` (truncation; these values are non-negative, so it is
the floor) into integer degrees, integer minutes, and seconds stored as
`(int(s * 1000), 1000)`. -/
def encodeCoord (x : ℚ) (posRef negRef : Char) : DMSCoord :=
  let ref := if x ≥ 0 then posRef else negRef
  let xDeg := |x|
  let d : Int := ⌊xDeg⌋
  let m : Int := ⌊(xDeg - d) * 60⌋
  let s : ℚ := ((xDeg - d) * 60 - m) * 60
  ⟨ref, d, m, ⌊s * 1000⌋, 1000⟩

/-- The latitude entry: reference `N`/`S` (src line 171). -/
def encodeLat (lat : ℚ) : DMSCoord := encodeCoord lat 'N' 'S'

/-- The longitude entry: reference `E`/`W` (src line 178). -/
def encodeLon (lon : ℚ) : DMSCoord := encodeCoord lon 'E' 'W'

/-- Modelled from the spec: the repository only encodes GPS rationals; the
decode direction of §4.4's GeoCodec round-trip is the standard DMS
reading `degrees + minutes/60 + seconds/3600`, negated when the
hemisphere reference is the negative one (`S`/`W`). -/
def decodeCoord (negRef : Char) (c : DMSCoord) : ℚ :=
  let magnitude : ℚ := (c.deg : ℚ) + (c.minutes : ℚ) / 60 + ((c.secNum : ℚ) / (c.secDen : ℚ)) / 3600
  if c.ref = negRef then -magnitude else magnitude

/-- Decoding an encoded coordinate recovers the input up to the floor of
the seconds value at denominator 1000, i.e. within 1/1000 of a second of
arc (1/3600000 of a degree). -/
theorem decode_encode_close (x : ℚ) (posRef negRef : Char) (hne : posRef ≠ negRef) :
    |decodeCoord negRef (encodeCoord x posRef negRef) - x| ≤ 1 / 3600000 := by
  rcases le_or_lt 0 x with hx | hx
  · have habs : |x| = x := abs_of_nonneg hx
    have hdec : decodeCoord negRef (encodeCoord x posRef negRef)
        = (⌊x⌋ : ℚ) + (⌊(x - ⌊x⌋) * 60⌋ : ℚ) / 60 +
          ((⌊((x - ⌊x⌋) * 60 - ⌊(x - ⌊x⌋) * 60⌋) * 60 * 1000⌋ : ℚ) / 1000) / 3600 := by
      simp only [decodeCoord, encodeCoord, habs]
      rw [if_pos hx, if_neg hne]
      norm_num
    rw [hdec]
    have heq : (⌊x⌋ : ℚ) + (⌊(x - ⌊x⌋) * 60⌋ : ℚ) / 60 +
          ((⌊((x - ⌊x⌋) * 60 - ⌊(x - ⌊x⌋) * 60⌋) * 60 * 1000⌋ : ℚ) / 1000) / 3600 - x
        = -(Int.fract (((x - ⌊x⌋) * 60 - ⌊(x - ⌊x⌋) * 60⌋) * 60 * 1000)) / 3600000 := by
      rw [Int.fract]
      ring
    rw [heq]
    rw [neg_div, abs_neg, abs_of_nonneg (div_nonneg (Int.fract_nonneg _) (by norm_num))]
    have hlt := (Int.fract_lt_one (((x - ⌊x⌋) * 60 - ⌊(x - ⌊x⌋) * 60⌋) * 60 * 1000)).le
    linarith
  · have habs : |x| = -x := abs_of_neg hx
    have hdec : decodeCoord negRef (encodeCoord x posRef negRef)
        = -((⌊-x⌋ : ℚ) + (⌊(-x - ⌊-x⌋) * 60⌋ : ℚ) / 60 +
            ((⌊((-x - ⌊-x⌋) * 60 - ⌊(-x - ⌊-x⌋) * 60⌋) * 60 * 1000⌋ : ℚ) / 1000) / 3600) := by
      simp only [decodeCoord, encodeCoord, habs]
      rw [if_neg (not_le.mpr hx), if_pos rfl]
      norm_num
    rw [hdec]
    have heq : -((⌊-x⌋ : ℚ) + (⌊(-x - ⌊-x⌋) * 60⌋ : ℚ) / 60 +
            ((⌊((-x - ⌊-x⌋) * 60 - ⌊(-x - ⌊-x⌋) * 60⌋) * 60 * 1000⌋ : ℚ) / 1000) / 3600) - x
        = Int.fract (((-x - ⌊-x⌋) * 60 - ⌊(-x - ⌊-x⌋) * 60⌋) * 60 * 1000) / 3600000 := by
      rw [Int.fract]
      ring
    rw [heq]
    rw [abs_of_nonneg (div_nonneg (Int.fract_nonneg _) (by norm_num))]
    have hlt := (Int.fract_lt_one (((-x - ⌊-x⌋) * 60 - ⌊(-x - ⌊-x⌋) * 60⌋) * 60 * 1000)).le
    linarith

/-- C7: for any latitude in [-90, 90] and longitude in [-180, 180],
decoding the encoded EXIF DMS rational form (degrees/minutes with
denominator 1, seconds with fixed denominator 1000, sign in the N/S and
E/W reference) reproduces the original decimal values to within 1/1000
second of arc. -/
theorem dms_roundtrip (lat lon : ℚ)
    (h1 : -90 ≤ lat) (h2 : lat ≤ 90) (h3 : -180 ≤ lon) (h4 : lon ≤ 180) :
    |decodeCoord 'S' (encodeLat lat) - lat| ≤ 1 / 3600000 ∧
    |decodeCoord 'W' (encodeLon lon) - lon| ≤ 1 / 3600000 :=
  ⟨decode_encode_close lat 'N' 'S' (by decide),
   decode_encode_close lon 'E' 'W' (by decide)⟩

/-- Witness for `dms_roundtrip` at lat 45/2, lon -100/3. -/
theorem dms_roundtrip_witness :
    |decodeCoord 'S' (encodeLat (45 / 2)) - 45 / 2| ≤ 1 / 3600000 ∧
    |decodeCoord 'W' (encodeLon (-100 / 3)) - (-100 / 3)| ≤ 1 / 3600000 :=
  dms_roundtrip (45 / 2) (-100 / 3) (by norm_num) (by norm_num)
    (by norm_num) (by norm_num)

/-- `interpolateItem` when the bracketing timestamps differ: affine blend
at the time fraction, error the smaller endpoint gap. -/
theorem interpolateItem_span_ne (pp : String) (q : ℚ) (pb pa : TrackPoint) (me : ℚ)
    (h : pa.t_utc - pb.t_utc ≠ 0) :
    interpolateItem pp q pb pa me =
      (let ratio := (q - pb.t_utc) / (pa.t_utc - pb.t_utc)
       let e := min |q - pb.t_utc| |q - pa.t_utc|
       if e > me then
         ⟨pp, none, none, some e, none, MATCH_STATUS_TOO_FAR,
          some (Reason.interpTooFar e)⟩
       else
         ⟨pp, some (pb.lat + (pa.lat - pb.lat) * ratio),
          some (pb.lon + (pa.lon - pb.lon) * ratio), some e,
          some MATCH_METHOD_INTERP, MATCH_STATUS_MATCHED, none⟩) := by
  simp only [interpolateItem, if_neg h]

/-- `interpolateItem` when the bracketing timestamps coincide: `before`'s
coordinates are used exactly. -/
theorem interpolateItem_span_zero (pp : String) (q : ℚ) (pb pa : TrackPoint) (me : ℚ)
    (h : pb.t_utc = pa.t_utc) :
    interpolateItem pp q pb pa me =
      (let e := |q - pb.t_utc|
       if e > me then
         ⟨pp, none, none, some e, none, MATCH_STATUS_TOO_FAR,
          some (Reason.interpTooFar e)⟩
       else
         ⟨pp, some pb.lat, some pb.lon, some e,
          some MATCH_METHOD_INTERP, MATCH_STATUS_MATCHED, none⟩) := by
  have hspan : pa.t_utc - pb.t_utc = 0 := by rw [h, sub_self]
  simp [interpolateItem, hspan]

/-- C4: in interp mode with no distance limit, a NEEDS_MATCH photo
strictly inside a bracket gets the exact affine blends of the two
endpoints at `ratio = (query - t_before) / (t_after - t_before)` with
the reported error the smaller endpoint gap (the bracketing timestamps
are necessarily distinct there); when the bracketing timestamps are
equal the interpolation tail uses `before`'s coordinates exactly; and
the spec's concrete scenario holds: track (0 s, 10, 20), (100 s,
10.01, 20.02), photo at 25 s, max error 120 s gives lat 10.0025,
lon 20.005, error 25, method interp, status matched. -/
theorem interp_exact_blend
    (photos : List PhotoItem) (tps : List TrackPoint) (tz cam maxErr : ℚ)
    (dfn : ℚ → ℚ → ℚ → ℚ → ℚ) (hp : Bool) (results : List MatchItem)
    (hrun : matchPhotosToTrack photos tps tz cam maxErr MATCH_METHOD_INTERP none dfn hp
      = Except.ok results)
    (k : ℕ) (hk : k < photos.length)
    (hst : (photos.getD k piDefault).status = PHOTO_STATUS_NEED_PROCESS)
    (t : ℚ) (ht : (photos.getD k piDefault).datetime_utc = some t)
    (hs : List.Chain' (· ≤ ·) (tps.map TrackPoint.t_utc))
    (i : ℕ) (hi0 : 0 < i) (hilen : i < tps.length)
    (hlow : (tps.getD (i - 1) tpDefault).t_utc < convertPhotoTimeToUtc t tz cam)
    (hhigh : convertPhotoTimeToUtc t tz cam < (tps.getD i tpDefault).t_utc) :
    (results.getD k miDefault =
      (let q := convertPhotoTimeToUtc t tz cam
       let pb := tps.getD (i - 1) tpDefault
       let pa := tps.getD i tpDefault
       let ratio := (q - pb.t_utc) / (pa.t_utc - pb.t_utc)
       let e := min |q - pb.t_utc| |q - pa.t_utc|
       if e > maxErr then
         ⟨(photos.getD k piDefault).path, none, none, some e, none,
          MATCH_STATUS_TOO_FAR, some (Reason.interpTooFar e)⟩
       else
         ⟨(photos.getD k piDefault).path,
          some (pb.lat + (pa.lat - pb.lat) * ratio),
          some (pb.lon + (pa.lon - pb.lon) * ratio), some e,
          some MATCH_METHOD_INTERP, MATCH_STATUS_MATCHED, none⟩)) ∧
    (∀ (pp : String) (q2 me2 : ℚ) (pb2 pa2 : TrackPoint),
      pb2.t_utc = pa2.t_utc →
      interpolateItem pp q2 pb2 pa2 me2 =
        (let e := |q2 - pb2.t_utc|
         if e > me2 then
           ⟨pp, none, none, some e, none, MATCH_STATUS_TOO_FAR,
            some (Reason.interpTooFar e)⟩
         else
           ⟨pp, some pb2.lat, some pb2.lon, some e,
            some MATCH_METHOD_INTERP, MATCH_STATUS_MATCHED, none⟩)) ∧
    matchPhotosToTrack [⟨"p.jpg", false, some 25, PHOTO_STATUS_NEED_PROCESS⟩]
        [⟨0, 10, 20⟩, ⟨100, 1001 / 100, 1001 / 50⟩] 0 0 120 MATCH_METHOD_INTERP none
        (fun _ _ _ _ => 0) false
      = Except.ok [⟨"p.jpg", some (4001 / 400), some (4001 / 200), some 25,
          some MATCH_METHOD_INTERP, MATCH_STATUS_MATCHED, none⟩] := by
  refine ⟨?_, ?_, ?_⟩
  · have hne : tps ≠ [] := by
      intro hemp
      rw [hemp] at hilen
      exact absurd hilen (by simp)
    rw [matchPhotosToTrack] at hrun
    rw [if_neg (by simp [List.isEmpty_iff, hne])] at hrun
    rw [if_neg (by simp [MATCH_METHOD_INTERP])] at hrun
    have hpp := mapExcept_ok_getD _ piDefault miDefault photos results hrun k hk
    rw [processPhoto_bracket tps tz cam maxErr MATCH_METHOD_INTERP none dfn hp _
      hst t ht hs i hi0 hilen hlow (le_of_lt hhigh)] at hpp
    rw [if_neg (by decide)] at hpp
    have hspan : (tps.getD i tpDefault).t_utc - (tps.getD (i - 1) tpDefault).t_utc ≠ 0 :=
      sub_ne_zero.mpr (lt_trans hlow hhigh).ne'
    have hpp2 : Except.ok (interpolateItem (photos.getD k piDefault).path
        (convertPhotoTimeToUtc t tz cam) (tps.getD (i - 1) tpDefault)
        (tps.getD i tpDefault) maxErr) = Except.ok (results.getD k miDefault) := hpp
    rw [interpolateItem_span_ne _ _ _ _ _ hspan] at hpp2
    exact (Except.ok.inj hpp2).symm
  · intro pp q2 me2 pb2 pa2 hspan0
    exact interpolateItem_span_zero pp q2 pb2 pa2 me2 hspan0
  · norm_num [matchPhotosToTrack, processPhoto, mapExcept, convertPhotoTimeToUtc,
      interpolateItem, bisectLeft, bisectGo, List.getD, PHOTO_STATUS_NEED_PROCESS,
      MATCH_METHOD_NEAREST, MATCH_METHOD_INTERP, MATCH_STATUS_MATCHED,
      MATCH_STATUS_TOO_FAR, tpDefault]
    rfl


/-- Witness for `interp_exact_blend` at the spec's concrete scenario. -/
theorem interp_exact_blend_witness :
    ([⟨"p.jpg", some (4001 / 400), some (4001 / 200), some 25, some MATCH_METHOD_INTERP,
        MATCH_STATUS_MATCHED, none⟩] : List MatchItem).getD 0 miDefault =
      (let q := convertPhotoTimeToUtc 25 0 0
       let pb := ([⟨0, 10, 20⟩, ⟨100, 1001 / 100, 1001 / 50⟩] : List TrackPoint).getD 0 tpDefault
       let pa := ([⟨0, 10, 20⟩, ⟨100, 1001 / 100, 1001 / 50⟩] : List TrackPoint).getD 1 tpDefault
       let ratio := (q - pb.t_utc) / (pa.t_utc - pb.t_utc)
       let e := min |q - pb.t_utc| |q - pa.t_utc|
       if e > 120 then
         ⟨(([⟨"p.jpg", false, some 25, PHOTO_STATUS_NEED_PROCESS⟩] :
             List PhotoItem).getD 0 piDefault).path, none, none, some e, none,
          MATCH_STATUS_TOO_FAR, some (Reason.interpTooFar e)⟩
       else
         ⟨(([⟨"p.jpg", false, some 25, PHOTO_STATUS_NEED_PROCESS⟩] :
             List PhotoItem).getD 0 piDefault).path,
          some (pb.lat + (pa.lat - pb.lat) * ratio),
          some (pb.lon + (pa.lon - pb.lon) * ratio), some e,
          some MATCH_METHOD_INTERP, MATCH_STATUS_MATCHED, none⟩) :=
  (interp_exact_blend [⟨"p.jpg", false, some 25, PHOTO_STATUS_NEED_PROCESS⟩]
    [⟨0, 10, 20⟩, ⟨100, 1001 / 100, 1001 / 50⟩] 0 0 120 (fun _ _ _ _ => 0) false
    [⟨"p.jpg", some (4001 / 400), some (4001 / 200), some 25, some MATCH_METHOD_INTERP,
      MATCH_STATUS_MATCHED, none⟩]
    (by norm_num [matchPhotosToTrack, processPhoto, mapExcept, convertPhotoTimeToUtc,
          interpolateItem, bisectLeft, bisectGo, List.getD, PHOTO_STATUS_NEED_PROCESS,
          MATCH_METHOD_NEAREST, MATCH_METHOD_INTERP, MATCH_STATUS_MATCHED,
          MATCH_STATUS_TOO_FAR, tpDefault]
        rfl)
    0 (by norm_num) rfl 25 rfl
    (by norm_num [List.chain'_cons, List.chain'_singleton]) 1
    (by norm_num) (by norm_num)
    (by norm_num [List.getD, tpDefault, convertPhotoTimeToUtc])
    (by norm_num [List.getD, tpDefault, convertPhotoTimeToUtc])).1

theorem matched_ne_too_far : MATCH_STATUS_MATCHED ≠ MATCH_STATUS_TOO_FAR := by decide

/-- The error/status relationship of the interpolation tail: an error
value is always reported, it is non-negative, and `too_far` is returned
exactly when it exceeds the threshold. -/
theorem interpolateItem_error_spec (pp : String) (q : ℚ) (pb pa : TrackPoint) (me : ℚ) :
    ∃ e, (interpolateItem pp q pb pa me).error_sec = some e ∧ 0 ≤ e ∧
      ((interpolateItem pp q pb pa me).status = MATCH_STATUS_TOO_FAR ↔ e > me) := by
  by_cases hs0 : pa.t_utc - pb.t_utc = 0
  · rw [interpolateItem_span_zero _ _ _ _ _ (sub_eq_zero.mp hs0).symm]
    by_cases ht2 : |q - pb.t_utc| > me
    · rw [if_pos ht2]
      exact ⟨_, rfl, abs_nonneg _, ⟨fun _ => ht2, fun _ => rfl⟩⟩
    · rw [if_neg ht2]
      exact ⟨_, rfl, abs_nonneg _, ⟨fun hc => absurd hc matched_ne_too_far, fun hg => absurd hg ht2⟩⟩
  · rw [interpolateItem_span_ne _ _ _ _ _ hs0]
    by_cases ht2 : min |q - pb.t_utc| |q - pa.t_utc| > me
    · rw [if_pos ht2]
      exact ⟨_, rfl, le_min (abs_nonneg _) (abs_nonneg _), ⟨fun _ => ht2, fun _ => rfl⟩⟩
    · rw [if_neg ht2]
      exact ⟨_, rfl, le_min (abs_nonneg _) (abs_nonneg _),
        ⟨fun hc => absurd hc matched_ne_too_far, fun hg => absurd hg ht2⟩⟩

/-- Every processed (`need_process`, timestamped) photo that yields a
result gets a non-negative `error_sec`, classified `too_far` exactly
when it exceeds `max_error_sec`; outside the track span the error is the
absolute gap to the single nearest endpoint picked by binary search. -/
theorem processPhoto_error_spec
    (tps : List TrackPoint) (tz cam maxErr : ℚ) (method : String)
    (maxD : Option ℚ) (dfn : ℚ → ℚ → ℚ → ℚ → ℚ) (hp : Bool) (photo : PhotoItem)
    (hst : photo.status = PHOTO_STATUS_NEED_PROCESS) (t : ℚ)
    (ht : photo.datetime_utc = some t) (hne : tps ≠ [])
    (item : MatchItem)
    (h : processPhoto tps (tps.map TrackPoint.t_utc) tz cam maxErr method maxD dfn hp photo
      = Except.ok item) :
    ∃ e, item.error_sec = some e ∧ 0 ≤ e ∧
      (item.status = MATCH_STATUS_TOO_FAR ↔ e > maxErr) ∧
      (bisectLeft (tps.map TrackPoint.t_utc) (convertPhotoTimeToUtc t tz cam) = 0 →
        e = |convertPhotoTimeToUtc t tz cam - (tps.getD 0 tpDefault).t_utc|) ∧
      (bisectLeft (tps.map TrackPoint.t_utc) (convertPhotoTimeToUtc t tz cam) ≥ tps.length →
        e = |convertPhotoTimeToUtc t tz cam - (tps.getD (tps.length - 1) tpDefault).t_utc|) := by
  have hlen0 : 0 < tps.length := List.length_pos.mpr hne
  rw [processPhoto] at h
  rw [if_neg (by simp [hst, ht, PHOTO_STATUS_NEED_PROCESS])] at h
  rw [ht] at h
  simp only [Option.getD_some] at h
  set q := convertPhotoTimeToUtc t tz cam with hq
  set r := bisectLeft (tps.map TrackPoint.t_utc) q with hr
  by_cases h0 : r = 0
  · rw [if_pos h0] at h
    by_cases hthr : |q - (tps.getD 0 tpDefault).t_utc| > maxErr
    · rw [if_pos hthr] at h
      have hi := Except.ok.inj h
      subst hi
      exact ⟨_, rfl, abs_nonneg _, ⟨fun _ => hthr, fun _ => rfl⟩,
        fun _ => rfl, fun hc => absurd (h0 ▸ hc) (by omega)⟩
    · rw [if_neg hthr] at h
      have hi := Except.ok.inj h
      subst hi
      exact ⟨_, rfl, abs_nonneg _,
        ⟨fun hc => absurd hc matched_ne_too_far, fun hg => absurd hg hthr⟩,
        fun _ => rfl, fun hc => absurd (h0 ▸ hc) (by omega)⟩
  · rw [if_neg h0] at h
    by_cases hglen : r ≥ tps.length
    · rw [if_pos hglen] at h
      by_cases hthr : |q - (tps.getD (tps.length - 1) tpDefault).t_utc| > maxErr
      · rw [if_pos hthr] at h
        have hi := Except.ok.inj h
        subst hi
        exact ⟨_, rfl, abs_nonneg _, ⟨fun _ => hthr, fun _ => rfl⟩,
          fun hc => absurd hc h0, fun _ => rfl⟩
      · rw [if_neg hthr] at h
        have hi := Except.ok.inj h
        subst hi
        exact ⟨_, rfl, abs_nonneg _,
          ⟨fun hc => absurd hc matched_ne_too_far, fun hg => absurd hg hthr⟩,
          fun hc => absurd hc h0, fun _ => rfl⟩
    · rw [if_neg hglen] at h
      have hnn : (0 : ℚ) ≤
          if |q - (tps.getD (r - 1) tpDefault).t_utc| < |q - (tps.getD r tpDefault).t_utc|
          then |q - (tps.getD (r - 1) tpDefault).t_utc|
          else |q - (tps.getD r tpDefault).t_utc| := by
        split
        · exact abs_nonneg _
        · exact abs_nonneg _
      by_cases hm : method = MATCH_METHOD_NEAREST
      · rw [if_pos hm] at h
        by_cases hthr : (if |q - (tps.getD (r - 1) tpDefault).t_utc| <
              |q - (tps.getD r tpDefault).t_utc|
            then |q - (tps.getD (r - 1) tpDefault).t_utc|
            else |q - (tps.getD r tpDefault).t_utc|) > maxErr
        · rw [if_pos hthr] at h
          have hi := Except.ok.inj h
          subst hi
          exact ⟨_, rfl, hnn, ⟨fun _ => hthr, fun _ => rfl⟩,
            fun hc => absurd hc h0, fun hc => absurd hc hglen⟩
        · rw [if_neg hthr] at h
          have hi := Except.ok.inj h
          subst hi
          exact ⟨_, rfl, hnn,
            ⟨fun hc => absurd hc matched_ne_too_far, fun hg => absurd hg hthr⟩,
            fun hc => absurd hc h0, fun hc => absurd hc hglen⟩
      · rw [if_neg hm] at h
        cases maxD with
        | none =>
          obtain ⟨e, he, hnn2, hiff⟩ := interpolateItem_error_spec photo.path q
            (tps.getD (r - 1) tpDefault) (tps.getD r tpDefault) maxErr
          have hi := Except.ok.inj h
          subst hi
          exact ⟨e, he, hnn2, hiff, fun hc => absurd hc h0, fun hc => absurd hc hglen⟩
        | some maxDist =>
          dsimp only [] at h
          by_cases hd : dfn (tps.getD (r - 1) tpDefault).lat (tps.getD (r - 1) tpDefault).lon
              (tps.getD r tpDefault).lat (tps.getD r tpDefault).lon > maxDist
          · rw [if_pos hd] at h
            cases hp with
            | true => cases h
            | false =>
              have hi := Except.ok.inj h
              subst hi
              by_cases hthr : (if |q - (tps.getD (r - 1) tpDefault).t_utc| <
                    |q - (tps.getD r tpDefault).t_utc|
                  then |q - (tps.getD (r - 1) tpDefault).t_utc|
                  else |q - (tps.getD r tpDefault).t_utc|) > maxErr
              · rw [if_pos hthr]
                exact ⟨_, rfl, hnn, ⟨fun _ => hthr, fun _ => rfl⟩,
                  fun hc => absurd hc h0, fun hc => absurd hc hglen⟩
              · rw [if_neg hthr]
                exact ⟨_, rfl, hnn,
                  ⟨fun hc => absurd hc matched_ne_too_far, fun hg => absurd hg hthr⟩,
                  fun hc => absurd hc h0, fun hc => absurd hc hglen⟩
          · rw [if_neg hd] at h
            obtain ⟨e, he, hnn2, hiff⟩ := interpolateItem_error_spec photo.path q
              (tps.getD (r - 1) tpDefault) (tps.getD r tpDefault) maxErr
            have hi := Except.ok.inj h
            subst hi
            exact ⟨e, he, hnn2, hiff, fun hc => absurd hc h0, fun hc => absurd hc hglen⟩


/-- C5: every processed photo's result carries a non-negative `error_sec`
(also on rejection), the result is `too_far` exactly when that error
strictly exceeds `max_error_sec`, and when the normalized time falls
outside the (sorted) track's span the error is the absolute gap to the
single nearest endpoint. -/
theorem too_far_iff_error_above_threshold
    (photos : List PhotoItem) (tps : List TrackPoint) (tz cam maxErr : ℚ)
    (method : String) (maxD : Option ℚ) (dfn : ℚ → ℚ → ℚ → ℚ → ℚ) (hp : Bool)
    (results : List MatchItem)
    (hrun : matchPhotosToTrack photos tps tz cam maxErr method maxD dfn hp
      = Except.ok results)
    (k : ℕ) (hk : k < photos.length)
    (hst : (photos.getD k piDefault).status = PHOTO_STATUS_NEED_PROCESS)
    (t : ℚ) (ht : (photos.getD k piDefault).datetime_utc = some t)
    (hs : List.Chain' (· ≤ ·) (tps.map TrackPoint.t_utc))
    (hne : tps ≠ []) :
    ∃ e, (results.getD k miDefault).error_sec = some e ∧ 0 ≤ e ∧
      ((results.getD k miDefault).status = MATCH_STATUS_TOO_FAR ↔ e > maxErr) ∧
      (convertPhotoTimeToUtc t tz cam < (tps.getD 0 tpDefault).t_utc →
        e = (tps.getD 0 tpDefault).t_utc - convertPhotoTimeToUtc t tz cam) ∧
      ((tps.getD (tps.length - 1) tpDefault).t_utc < convertPhotoTimeToUtc t tz cam →
        e = convertPhotoTimeToUtc t tz cam - (tps.getD (tps.length - 1) tpDefault).t_utc) := by
  have hlen0 : 0 < tps.length := List.length_pos.mpr hne
  have hmono := chain_getD_mono _ hs
  have hmaplen : (tps.map TrackPoint.t_utc).length = tps.length := by simp
  rw [matchPhotosToTrack] at hrun
  rw [if_neg (by simp [List.isEmpty_iff, hne])] at hrun
  by_cases hmv : method ≠ MATCH_METHOD_NEAREST ∧ method ≠ MATCH_METHOD_INTERP
  · rw [if_pos hmv] at hrun
    cases hrun
  · rw [if_neg hmv] at hrun
    have hpp := mapExcept_ok_getD _ piDefault miDefault photos results hrun k hk
    obtain ⟨e, he, hnn, hiff, hc0, hclen⟩ := processPhoto_error_spec tps tz cam maxErr
      method maxD dfn hp _ hst t ht hne _ hpp
    set q := convertPhotoTimeToUtc t tz cam with hq
    obtain ⟨hble, hblt, hbge⟩ := bisectLeft_spec (tps.map TrackPoint.t_utc) q hmono
    refine ⟨e, he, hnn, hiff, ?_, ?_⟩
    · intro hql
      have hr0 : bisectLeft (tps.map TrackPoint.t_utc) q = 0 := by
        by_contra hr
        have h00 : (tps.map TrackPoint.t_utc).getD 0 0 < q := hblt 0 (by omega)
        rw [mapTime_getD tps 0 hlen0] at h00
        exact absurd hql (not_lt.mpr h00.le)
      have := hc0 hr0
      rw [this, abs_of_neg (sub_neg.mpr hql), neg_sub]
    · intro hqh
      have hrlen : bisectLeft (tps.map TrackPoint.t_utc) q ≥ tps.length := by
        by_contra hr
        have hlast : q ≤ (tps.map TrackPoint.t_utc).getD (tps.length - 1) 0 := by
          apply hbge (tps.length - 1) (by omega)
          rw [hmaplen]
          omega
        rw [mapTime_getD tps (tps.length - 1) (by omega)] at hlast
        exact absurd hqh (not_lt.mpr hlast)
      have := hclen hrlen
      rw [this, abs_of_pos (sub_pos.mpr hqh)]


/-- Witness for `too_far_iff_error_above_threshold` at the spec's second
concrete scenario: photo normalizing to T=500 s against a track ending at
T=100 s with a 120 s threshold. -/
theorem too_far_iff_error_above_threshold_witness :
    ∃ e, (([⟨"p.jpg", none, none, some 400, none, MATCH_STATUS_TOO_FAR,
        some (Reason.afterEnd 400)⟩] : List MatchItem).getD 0 miDefault).error_sec
        = some e ∧ 0 ≤ e ∧
      ((([⟨"p.jpg", none, none, some 400, none, MATCH_STATUS_TOO_FAR,
          some (Reason.afterEnd 400)⟩] : List MatchItem).getD 0 miDefault).status
          = MATCH_STATUS_TOO_FAR ↔ e > 120) ∧
      (convertPhotoTimeToUtc 500 0 0 <
          (([⟨0, 10, 20⟩, ⟨100, 1001 / 100, 1001 / 50⟩] : List TrackPoint).getD 0
            tpDefault).t_utc →
        e = (([⟨0, 10, 20⟩, ⟨100, 1001 / 100, 1001 / 50⟩] : List TrackPoint).getD 0
              tpDefault).t_utc - convertPhotoTimeToUtc 500 0 0) ∧
      ((([⟨0, 10, 20⟩, ⟨100, 1001 / 100, 1001 / 50⟩] : List TrackPoint).getD
            (([⟨0, 10, 20⟩, ⟨100, 1001 / 100, 1001 / 50⟩] : List TrackPoint).length - 1)
            tpDefault).t_utc < convertPhotoTimeToUtc 500 0 0 →
        e = convertPhotoTimeToUtc 500 0 0 -
            (([⟨0, 10, 20⟩, ⟨100, 1001 / 100, 1001 / 50⟩] : List TrackPoint).getD
              (([⟨0, 10, 20⟩, ⟨100, 1001 / 100, 1001 / 50⟩] : List TrackPoint).length - 1)
              tpDefault).t_utc) :=
  too_far_iff_error_above_threshold
    [⟨"p.jpg", false, some 500, PHOTO_STATUS_NEED_PROCESS⟩]
    [⟨0, 10, 20⟩, ⟨100, 1001 / 100, 1001 / 50⟩] 0 0 120 MATCH_METHOD_INTERP none
    (fun _ _ _ _ => 0) false
    [⟨"p.jpg", none, none, some 400, none, MATCH_STATUS_TOO_FAR,
      some (Reason.afterEnd 400)⟩]
    (by norm_num [matchPhotosToTrack, processPhoto, mapExcept, convertPhotoTimeToUtc,
          interpolateItem, bisectLeft, bisectGo, List.getD, PHOTO_STATUS_NEED_PROCESS,
          MATCH_METHOD_NEAREST, MATCH_METHOD_INTERP, MATCH_STATUS_MATCHED,
          MATCH_STATUS_TOO_FAR, tpDefault]
        rfl)
    0 (by norm_num) rfl 500 rfl
    (by norm_num [List.chain'_cons, List.chain'_singleton])
    (by simp)

/-- C6: when interp mode's distance check fires (bracketing points
farther apart than `max_distance_m` according to the distance function),
the photo's result carries exactly the coordinate choice, error and
matched/too_far classification that nearest mode produces for the same
photo — including the tie-break, since the degradation branch duplicates
the nearest-mode selection — and its reason carries a degradation note. -/
theorem degrade_matches_nearest
    (photos : List PhotoItem) (tps : List TrackPoint) (tz cam maxErr maxD : ℚ)
    (dfn : ℚ → ℚ → ℚ → ℚ → ℚ) (hp : Bool) (ri rn : List MatchItem)
    (hrunI : matchPhotosToTrack photos tps tz cam maxErr MATCH_METHOD_INTERP
      (some maxD) dfn hp = Except.ok ri)
    (hrunN : matchPhotosToTrack photos tps tz cam maxErr MATCH_METHOD_NEAREST
      (some maxD) dfn hp = Except.ok rn)
    (k : ℕ) (hk : k < photos.length)
    (hst : (photos.getD k piDefault).status = PHOTO_STATUS_NEED_PROCESS)
    (t : ℚ) (ht : (photos.getD k piDefault).datetime_utc = some t)
    (hs : List.Chain' (· ≤ ·) (tps.map TrackPoint.t_utc))
    (i : ℕ) (hi0 : 0 < i) (hilen : i < tps.length)
    (hlow : (tps.getD (i - 1) tpDefault).t_utc < convertPhotoTimeToUtc t tz cam)
    (hhigh : convertPhotoTimeToUtc t tz cam < (tps.getD i tpDefault).t_utc)
    (hd : dfn (tps.getD (i - 1) tpDefault).lat (tps.getD (i - 1) tpDefault).lon
        (tps.getD i tpDefault).lat (tps.getD i tpDefault).lon > maxD) :
    (ri.getD k miDefault).lat = (rn.getD k miDefault).lat ∧
    (ri.getD k miDefault).lon = (rn.getD k miDefault).lon ∧
    (ri.getD k miDefault).error_sec = (rn.getD k miDefault).error_sec ∧
    (ri.getD k miDefault).status = (rn.getD k miDefault).status ∧
    (∃ note, (ri.getD k miDefault).reason = some note ∧
      (note = Reason.degraded (dfn (tps.getD (i - 1) tpDefault).lat
          (tps.getD (i - 1) tpDefault).lon (tps.getD i tpDefault).lat
          (tps.getD i tpDefault).lon) ∨
       ∃ e, note = Reason.degradeTooFar (dfn (tps.getD (i - 1) tpDefault).lat
          (tps.getD (i - 1) tpDefault).lon (tps.getD i tpDefault).lat
          (tps.getD i tpDefault).lon) e)) := by
  have hne : tps ≠ [] := by
    intro hemp
    rw [hemp] at hilen
    exact absurd hilen (by simp)
  rw [matchPhotosToTrack] at hrunI hrunN
  rw [if_neg (by simp [List.isEmpty_iff, hne])] at hrunI hrunN
  rw [if_neg (by simp [MATCH_METHOD_INTERP])] at hrunI
  rw [if_neg (by simp)] at hrunN
  have hppI := mapExcept_ok_getD _ piDefault miDefault photos ri hrunI k hk
  have hppN := mapExcept_ok_getD _ piDefault miDefault photos rn hrunN k hk
  rw [processPhoto_bracket tps tz cam maxErr MATCH_METHOD_INTERP (some maxD) dfn hp _
    hst t ht hs i hi0 hilen hlow (le_of_lt hhigh)] at hppI
  rw [processPhoto_bracket tps tz cam maxErr MATCH_METHOD_NEAREST (some maxD) dfn hp _
    hst t ht hs i hi0 hilen hlow (le_of_lt hhigh)] at hppN
  rw [if_neg (by decide)] at hppI
  rw [if_pos rfl] at hppN
  dsimp only [] at hppI
  rw [if_pos hd] at hppI
  cases hp with
  | true => cases hppI
  | false =>
    set q := convertPhotoTimeToUtc t tz cam with hq
    set pb := tps.getD (i - 1) tpDefault with hpb
    set pa := tps.getD i tpDefault with hpa
    set eb := |q - pb.t_utc| with heb
    set ea := |q - pa.t_utc| with hea
    have hitemI := (Except.ok.inj hppI).symm
    by_cases hthr : (if eb < ea then eb else ea) > maxErr
    · rw [if_pos hthr] at hppN
      have hitemN := (Except.ok.inj hppN).symm
      rw [if_pos hthr] at hitemI
      rw [hitemI, hitemN]
      exact ⟨rfl, rfl, rfl, rfl, _, rfl,
        Or.inr ⟨if eb < ea then eb else ea, rfl⟩⟩
    · rw [if_neg hthr] at hppN
      have hitemN := (Except.ok.inj hppN).symm
      rw [if_neg hthr] at hitemI
      rw [hitemI, hitemN]
      exact ⟨rfl, rfl, rfl, rfl, _, rfl, Or.inl rfl⟩


/-- Witness for `degrade_matches_nearest`: bracketing points modelled
155 km apart with a 100 m limit; the degraded interp result equals the
nearest-mode result except for its degradation note. -/
theorem degrade_matches_nearest_witness :
    (([⟨"p.jpg", some 11, some 21, some 50, some MATCH_METHOD_NEAREST,
        MATCH_STATUS_MATCHED, some (Reason.degraded 155000)⟩] :
        List MatchItem).getD 0 miDefault).lat
      = (([⟨"p.jpg", some 11, some 21, some 50, some MATCH_METHOD_NEAREST,
          MATCH_STATUS_MATCHED, none⟩] : List MatchItem).getD 0 miDefault).lat ∧
    (([⟨"p.jpg", some 11, some 21, some 50, some MATCH_METHOD_NEAREST,
        MATCH_STATUS_MATCHED, some (Reason.degraded 155000)⟩] :
        List MatchItem).getD 0 miDefault).lon
      = (([⟨"p.jpg", some 11, some 21, some 50, some MATCH_METHOD_NEAREST,
          MATCH_STATUS_MATCHED, none⟩] : List MatchItem).getD 0 miDefault).lon ∧
    (([⟨"p.jpg", some 11, some 21, some 50, some MATCH_METHOD_NEAREST,
        MATCH_STATUS_MATCHED, some (Reason.degraded 155000)⟩] :
        List MatchItem).getD 0 miDefault).error_sec
      = (([⟨"p.jpg", some 11, some 21, some 50, some MATCH_METHOD_NEAREST,
          MATCH_STATUS_MATCHED, none⟩] : List MatchItem).getD 0 miDefault).error_sec ∧
    (([⟨"p.jpg", some 11, some 21, some 50, some MATCH_METHOD_NEAREST,
        MATCH_STATUS_MATCHED, some (Reason.degraded 155000)⟩] :
        List MatchItem).getD 0 miDefault).status
      = (([⟨"p.jpg", some 11, some 21, some 50, some MATCH_METHOD_NEAREST,
          MATCH_STATUS_MATCHED, none⟩] : List MatchItem).getD 0 miDefault).status ∧
    (∃ note, (([⟨"p.jpg", some 11, some 21, some 50, some MATCH_METHOD_NEAREST,
        MATCH_STATUS_MATCHED, some (Reason.degraded 155000)⟩] :
        List MatchItem).getD 0 miDefault).reason = some note ∧
      (note = Reason.degraded ((fun _ _ _ _ => (155000 : ℚ))
          (([⟨0, 10, 20⟩, ⟨100, 11, 21⟩] : List TrackPoint).getD 0 tpDefault).lat
          (([⟨0, 10, 20⟩, ⟨100, 11, 21⟩] : List TrackPoint).getD 0 tpDefault).lon
          (([⟨0, 10, 20⟩, ⟨100, 11, 21⟩] : List TrackPoint).getD 1 tpDefault).lat
          (([⟨0, 10, 20⟩, ⟨100, 11, 21⟩] : List TrackPoint).getD 1 tpDefault).lon) ∨
       ∃ e, note = Reason.degradeTooFar ((fun _ _ _ _ => (155000 : ℚ))
          (([⟨0, 10, 20⟩, ⟨100, 11, 21⟩] : List TrackPoint).getD 0 tpDefault).lat
          (([⟨0, 10, 20⟩, ⟨100, 11, 21⟩] : List TrackPoint).getD 0 tpDefault).lon
          (([⟨0, 10, 20⟩, ⟨100, 11, 21⟩] : List TrackPoint).getD 1 tpDefault).lat
          (([⟨0, 10, 20⟩, ⟨100, 11, 21⟩] : List TrackPoint).getD 1 tpDefault).lon) e)) :=
  degrade_matches_nearest
    [⟨"p.jpg", false, some 50, PHOTO_STATUS_NEED_PROCESS⟩]
    [⟨0, 10, 20⟩, ⟨100, 11, 21⟩] 0 0 1000 100 (fun _ _ _ _ => 155000) false
    [⟨"p.jpg", some 11, some 21, some 50, some MATCH_METHOD_NEAREST,
      MATCH_STATUS_MATCHED, some (Reason.degraded 155000)⟩]
    [⟨"p.jpg", some 11, some 21, some 50, some MATCH_METHOD_NEAREST,
      MATCH_STATUS_MATCHED, none⟩]
    (by norm_num [matchPhotosToTrack, processPhoto, mapExcept, convertPhotoTimeToUtc,
          interpolateItem, bisectLeft, bisectGo, List.getD, PHOTO_STATUS_NEED_PROCESS,
          MATCH_METHOD_NEAREST, MATCH_METHOD_INTERP, MATCH_STATUS_MATCHED,
          MATCH_STATUS_TOO_FAR, tpDefault]
        rfl)
    (by norm_num [matchPhotosToTrack, processPhoto, mapExcept, convertPhotoTimeToUtc,
          interpolateItem, bisectLeft, bisectGo, List.getD, PHOTO_STATUS_NEED_PROCESS,
          MATCH_METHOD_NEAREST, MATCH_METHOD_INTERP, MATCH_STATUS_MATCHED,
          MATCH_STATUS_TOO_FAR, tpDefault]
        rfl)
    0 (by norm_num) rfl 50 rfl
    (by norm_num [List.chain'_cons, List.chain'_singleton]) 1
    (by norm_num) (by norm_num)
    (by norm_num [List.getD, tpDefault, convertPhotoTimeToUtc])
    (by norm_num [List.getD, tpDefault, convertPhotoTimeToUtc])
    (by norm_num [List.getD, tpDefault])

end Tracklog
